import Mathlib

/-!
Verification of the certificate-issuance and signature-transcoding core
(`AsnEcSignatureFormatter`, `X509CertificateGenerator`, `PemData`).

Byte buffers are modelled as lists of naturals (each intended `< 256`);
JS objects with optional properties become structures of `Option` fields;
fallible operations return `Except String`; the value `null` returned by a
signature formatter to mean "not applicable" becomes `Option`.

External collaborators (the ASN.1 structure codec, the text classifiers of
`pvtsutils`, the platform signer, the algorithm provider, the name parser)
are not part of the repository: they are modelled from the specification's
interface contracts, either as explicitly `Modelled from the spec` functions
or as abstract function-valued parameters.
-/

/-- Byte sequences: lists of naturals, each intended to be `< 256`. -/
abbrev Bytes := List Nat

/-- A WebCrypto algorithm descriptor: a JS object whose relevant optional
properties are `name`, `hash` and `namedCurve`.  A field holding `none`
models an absent property. -/
structure AlgorithmDesc where
  name : Option String
  hash : Option String
  namedCurve : Option String
deriving DecidableEq

/-- JS object spread `{ ...a, ...b }` as used at
`X509CertificateGenerator.create`: every property present on `b` overrides
the one on `a`; `a`'s property survives only where `b` lacks it. -/
def mergeAlg (a b : AlgorithmDesc) : AlgorithmDesc :=
  { name := match b.name with | some v => some v | none => a.name
    hash := match b.hash with | some v => some v | none => a.hash
    namedCurve := match b.namedCurve with | some v => some v | none => a.namedCurve }

/-- The structured ECDSA signature value: the pair of integer magnitudes
`r` and `s` as minimal big-endian byte strings (from `@peculiar/asn1-ecc`). -/
structure ECDSASigValue where
  r : Bytes
  s : Bytes
deriving DecidableEq

/-- Modelled from the spec: the canonical signed-integer content bytes the
external structure codec produces for an unsigned magnitude (§4.3, §9): a
zero magnitude becomes the single byte `0`, and a magnitude whose first
byte has its high bit set gains one leading zero sign byte. -/
def canonicalIntBytes : Bytes → Bytes
  | [] => [0]
  | b :: bs => if 128 ≤ b then 0 :: b :: bs else b :: bs

/-- Modelled from the spec: the serialized structured signature, abstracted
to the pair of DER INTEGER content byte strings for `r` and `s` produced by
the external codec (`AsnConvert.serialize`, §6: deterministic canonical
encoding). -/
structure SerializedECDSASig where
  rEnc : Bytes
  sEnc : Bytes
deriving DecidableEq

/-- Modelled from the spec: `AsnConvert.serialize` on an `ECDSASigValue`,
performing the canonical signed-integer encoding of each magnitude. -/
def serializeECDSASigValue (v : ECDSASigValue) : SerializedECDSASig :=
  { rEnc := canonicalIntBytes v.r, sEnc := canonicalIntBytes v.s }

/-- Modelled from the spec: `AsnConvert.parse` recovers from the serialized
structure the two integer content byte strings exactly as stored (§4.3:
each may carry the leading zero sign byte of canonical signed encoding). -/
def parseECDSASigValue (d : SerializedECDSASig) : ECDSASigValue :=
  { r := d.rEnc, s := d.sEnc }

namespace AsnEcSignatureFormatter

/-- `AsnEcSignatureFormatter.defaultNamedCurveSize`. -/
def defaultNamedCurveSize : Nat := 32

/-- The point-size lookup
`namedCurveSize.get(namedCurve) || defaultNamedCurveSize` performed by both
conversion directions.  The map is a parameter (`String → Option Nat`);
a missing `namedCurve` property, a missing map entry, and a registered size
of `0` (falsy under JS `||`) all yield the default. -/
def pointSizeFor (namedCurveSize : String → Option Nat) (namedCurve : Option String) : Nat :=
  match namedCurve with
  | none => defaultNamedCurveSize
  | some c =>
    match namedCurveSize c with
    | some n => if n = 0 then defaultNamedCurveSize else n
    | none => defaultNamedCurveSize

/-- `AsnEcSignatureFormatter.addPadding`: left-zero-pad `data` to
`pointSize` bytes via `res.set(bytes, pointSize - bytes.length)`.  When
`data` is longer than `pointSize` the JS offset `pointSize - bytes.length`
is negative and `Uint8Array.set` throws a `RangeError`, modelled as
`Except.error`. -/
def addPadding (pointSize : Nat) (data : Bytes) : Except String Bytes :=
  if data.length ≤ pointSize then
    Except.ok (List.replicate (pointSize - data.length) 0 ++ data)
  else
    Except.error "RangeError: offset is out of bounds"

/-- `AsnEcSignatureFormatter.removePadding`: skip leading zero (falsy)
bytes and return the remainder; an all-zero input yields the empty
buffer. -/
def removePadding (data : Bytes) : Bytes :=
  List.dropWhile (fun b => b == 0) data

/-- `AsnEcSignatureFormatter.toAsnSignature`: for an ECDSA algorithm, slice
the raw signature into the two point-size halves, strip each half's leading
zeros, and serialize the resulting structure; for any other algorithm
return `null` (not applicable). -/
def toAsnSignature (namedCurveSize : String → Option Nat) (algorithm : AlgorithmDesc)
    (signature : Bytes) : Option SerializedECDSASig :=
  if algorithm.name = some "ECDSA" then
    let pointSize := pointSizeFor namedCurveSize algorithm.namedCurve
    let ecSignature : ECDSASigValue :=
      { r := removePadding (signature.take pointSize)
        s := removePadding ((signature.drop pointSize).take pointSize) }
    some (serializeECDSASigValue ecSignature)
  else
    none

/-- `AsnEcSignatureFormatter.toWebSignature`: for an ECDSA algorithm, parse
the structured signature, strip each recovered integer's leading zeros,
left-pad each back to the point size and concatenate; a thrown `RangeError`
from `addPadding` propagates as `Except.error`, and a non-ECDSA algorithm
yields `ok none` (`null`, not applicable). -/
def toWebSignature (namedCurveSize : String → Option Nat) (algorithm : AlgorithmDesc)
    (signature : SerializedECDSASig) : Except String (Option Bytes) :=
  if algorithm.name = some "ECDSA" then
    let ecSigValue := parseECDSASigValue signature
    let pointSize := pointSizeFor namedCurveSize algorithm.namedCurve
    match addPadding pointSize (removePadding ecSigValue.r),
          addPadding pointSize (removePadding ecSigValue.s) with
    | Except.ok r, Except.ok s => Except.ok (some (r ++ s))
    | Except.error e, _ => Except.error e
    | _, Except.error e => Except.error e
  else
    Except.ok none

end AsnEcSignatureFormatter

/-- Minimal big-endian byte string of a natural number (`[]` for `0`):
the reversed base-256 digit list. -/
def natToBE (n : Nat) : Bytes :=
  (Nat.digits 256 n).reverse

/-- Left-zero-pad a byte string to width `w`. -/
def leftPad (w : Nat) (bs : Bytes) : Bytes :=
  List.replicate (w - bs.length) 0 ++ bs

/-- One raw-signature coordinate: the value `n` big-endian, left-zero-padded
to the point size `P`. -/
def rawCoordinate (n P : Nat) : Bytes :=
  leftPad P (natToBE n)

/-- The raw (WebCrypto) signature `R‖S` for point size `P`: each coordinate
big-endian and left-zero-padded to `P` bytes. -/
def rawSignature (R S P : Nat) : Bytes :=
  rawCoordinate R P ++ rawCoordinate S P

/-- A registered signature formatter, reduced to the operation the builder
invokes (`IAsnSignatureFormatter.toAsnSignature`); `none` is the `null`
"not applicable" answer.  The converted structured signature is kept as an
opaque byte string. -/
structure SignatureFormatter where
  toAsnSignature : AlgorithmDesc → Bytes → Option Bytes

/-- A signing `CryptoKey`: an opaque handle plus its algorithm metadata. -/
structure SigningKey where
  handle : Nat
  algorithm : AlgorithmDesc

/-- A `CryptoKeyPair`. -/
structure CryptoKeyPair where
  publicKey : Nat
  privateKey : SigningKey

/-- `X509CertificateCreateParams` (subject/issuer abstracted to their
string form; the public key is an opaque handle). -/
structure CreateParams where
  serialNumber : String
  notBefore : Nat
  notAfter : Nat
  extensions : List Bytes
  subject : Option String
  issuer : Option String
  publicKey : Nat
  signingKey : SigningKey
  signingAlgorithm : AlgorithmDesc

/-- `X509CertificateCreateSelfSignedParams`. -/
structure CreateSelfSignedParams where
  serialNumber : String
  notBefore : Nat
  notAfter : Nat
  extensions : List Bytes
  name : Option String
  keys : CryptoKeyPair
  signingAlgorithm : AlgorithmDesc

/-- The `asn1X509.TBSCertificate` fields the builder fills in; parsed
sub-structures are kept as the byte strings the external codec returned. -/
structure TBSCertificate where
  version : Nat
  serialNumber : Bytes
  notBefore : Nat
  notAfter : Nat
  extensions : List Bytes
  subjectPublicKeyInfo : Bytes
  subject : Option Bytes
  issuer : Option Bytes
  signature : Bytes

/-- The `asn1X509.Certificate` structure assembled by the builder. -/
structure AsnCertificate where
  tbsCertificate : TBSCertificate
  signatureAlgorithm : Bytes
  signatureValue : Bytes

/-- Modelled from the spec: the external collaborators consumed by
`X509CertificateGenerator.create` (§6) — the platform signer (key export
and signing), the structure codec parse/serialize entry points, the hex
decoder, the name parser, and the algorithm provider — as abstract
deterministic functions. -/
structure X509Services where
  exportKey : Nat → Bytes
  parseSpki : Bytes → Bytes
  fromHex : String → Bytes
  parseExtension : Bytes → Bytes
  nameToAsn : String → Bytes
  toAsnAlgorithm : AlgorithmDesc → Bytes
  serializeTbs : TBSCertificate → Bytes
  sign : AlgorithmDesc → Nat → Bytes → Bytes

namespace X509CertificateGenerator

/-- The effective signing algorithm of `create`:
`{ ...params.signingAlgorithm, ...params.signingKey.algorithm }`. -/
def effectiveSigningAlgorithm (params : CreateParams) : AlgorithmDesc :=
  mergeAlg params.signingAlgorithm params.signingKey.algorithm

/-- The unsigned body assembled by `create` before the signing algorithm is
set: version v3, serial number decoded from hex, validity window, parsed
extensions and public-key info, optional subject and issuer names. -/
def assembleTbs (svc : X509Services) (params : CreateParams) : TBSCertificate :=
  let spki := svc.exportKey params.publicKey
  let base : TBSCertificate :=
    { version := 2
      serialNumber := svc.fromHex params.serialNumber
      notBefore := params.notBefore
      notAfter := params.notAfter
      extensions := params.extensions.map svc.parseExtension
      subjectPublicKeyInfo := svc.parseSpki spki
      subject := none
      issuer := none
      signature := [] }
  let withSubject :=
    match params.subject with
    | some s => { base with subject := some (svc.nameToAsn s) }
    | none => base
  match params.issuer with
  | some s => { withSubject with issuer := some (svc.nameToAsn s) }
  | none => withSubject

/-- The body with its internal signature-algorithm field assigned from the
algorithm provider
(`asnX509.tbsCertificate.signature = algProv.toAsnAlgorithm(...)`). -/
def tbsCertificateOf (svc : X509Services) (params : CreateParams) : TBSCertificate :=
  { assembleTbs svc params with
      signature := svc.toAsnAlgorithm (effectiveSigningAlgorithm params) }

/-- The raw signature produced by the external signer over the serialized
to-be-signed bytes, using the effective signing algorithm. -/
def rawSignatureOf (svc : X509Services) (params : CreateParams) : Bytes :=
  svc.sign (effectiveSigningAlgorithm params) params.signingKey.handle
    (svc.serializeTbs (tbsCertificateOf svc params))

/-- The formatter trial loop of `create`: the registry (in registration
order) is reversed and each formatter's `toAsnSignature` is tried; the
first non-`null` result wins. -/
def convertToAsnSignature (registry : List SignatureFormatter) (algorithm : AlgorithmDesc)
    (signature : Bytes) : Option Bytes :=
  registry.reverse.findSome? fun f => f.toAsnSignature algorithm signature

/-- `X509CertificateGenerator.create`, on the abstract external services
and the formatter registry: assemble the body, set both algorithm fields
from the provider, sign the serialized body, convert the raw signature via
the registry, and fail when every formatter declines. -/
def create (svc : X509Services) (registry : List SignatureFormatter)
    (params : CreateParams) : Except String AsnCertificate :=
  match convertToAsnSignature registry (effectiveSigningAlgorithm params)
      (rawSignatureOf svc params) with
  | some asnSignature =>
    Except.ok
      { tbsCertificate := tbsCertificateOf svc params
        signatureAlgorithm := svc.toAsnAlgorithm (effectiveSigningAlgorithm params)
        signatureValue := asnSignature }
  | none => Except.error "Cannot convert ASN.1 signature value to WebCrypto format"

/-- The parameter repackaging performed by `createSelfSigned`. -/
def selfSignedCreateParams (params : CreateSelfSignedParams) : CreateParams :=
  { serialNumber := params.serialNumber
    subject := params.name
    issuer := params.name
    notBefore := params.notBefore
    notAfter := params.notAfter
    publicKey := params.keys.publicKey
    signingKey := params.keys.privateKey
    signingAlgorithm := params.signingAlgorithm
    extensions := params.extensions }

/-- `X509CertificateGenerator.createSelfSigned`: delegates to `create`. -/
def createSelfSigned (svc : X509Services) (registry : List SignatureFormatter)
    (params : CreateSelfSignedParams) : Except String AsnCertificate :=
  create svc registry (selfSignedCreateParams params)

end X509CertificateGenerator

/-- Modelled from the spec: the external text classifiers and decoders
consumed by `PemData.toArrayBuffer` (`PemConverter.isPem`/`decode` of this
repository, not under `src/`, and `Convert.isHex`/`isBase64`/`isBase64Url`
with their decoders from `pvtsutils`), abstracted to predicate/decoder
pairs; `pemDecode` returns the list of decoded delimited-text objects the
string contains, in order. -/
structure TextCodec where
  isPem : String → Bool
  pemDecode : String → List Bytes
  isHex : String → Bool
  fromHex : String → Bytes
  isBase64 : String → Bool
  fromBase64 : String → Bytes
  isBase64Url : String → Bool
  fromBase64Url : String → Bytes

/-- The `BufferSource | string` argument of `PemData.toArrayBuffer`. -/
inductive RawInput where
  | bytes (b : Bytes)
  | text (s : String)

namespace PemData

/-- `PemData.toArrayBuffer`: a non-string input is returned unchanged; a
string is classified PEM-first, then hex, then base64, then base64url, the
first match deciding the decoder; in the PEM branch only the first decoded
object (`PemConverter.decode(raw)[0]`, modelled `headD []`) is kept; when
no classifier matches, a `TypeError` naming the accepted set is thrown. -/
def toArrayBuffer (c : TextCodec) : RawInput → Except String Bytes
  | RawInput.bytes b => Except.ok b
  | RawInput.text s =>
    if c.isPem s then
      Except.ok ((c.pemDecode s).headD [])
    else if c.isHex s then
      Except.ok (c.fromHex s)
    else if c.isBase64 s then
      Except.ok (c.fromBase64 s)
    else if c.isBase64Url s then
      Except.ok (c.fromBase64Url s)
    else
      Except.error "Unsupported format of raw argument. Must be one of DER, PEM, HEX, Base64, or Base4Url"

end PemData

/-! Helper lemmas about minimal big-endian byte strings, padding and
stripping, shared by the theorems below. -/

theorem natToBE_length_le {n P : Nat} (h : n < 256 ^ P) : (natToBE n).length ≤ P := by
  rcases eq_or_ne n 0 with rfl | hn
  · simp [natToBE]
  · have hlog : Nat.log 256 n < P := Nat.log_lt_of_lt_pow hn h
    have hlen : (Nat.digits 256 n).length = Nat.log 256 n + 1 :=
      Nat.digits_len 256 n (by norm_num) hn
    simp only [natToBE, List.length_reverse, hlen]
    omega

theorem natToBE_head?_ne_zero {n b : Nat} (h : (natToBE n).head? = some b) : b ≠ 0 := by
  have hn : n ≠ 0 := by
    rintro rfl
    simp [natToBE] at h
  have hne : Nat.digits 256 n ≠ [] := Nat.digits_ne_nil_iff_ne_zero.mpr hn
  rw [natToBE, List.head?_reverse, List.getLast?_eq_getLast _ hne] at h
  obtain rfl : (Nat.digits 256 n).getLast hne = b := Option.some.inj h
  exact Nat.getLast_digit_ne_zero 256 hn

namespace AsnEcSignatureFormatter

theorem removePadding_eq_self_of_head {bs : Bytes}
    (h : ∀ b, bs.head? = some b → b ≠ 0) : removePadding bs = bs := by
  cases bs with
  | nil => rfl
  | cons b t =>
    have hb : b ≠ 0 := h b rfl
    simp [removePadding, List.dropWhile_cons, hb]

theorem removePadding_natToBE (n : Nat) : removePadding (natToBE n) = natToBE n :=
  removePadding_eq_self_of_head fun _ hb => natToBE_head?_ne_zero hb

theorem removePadding_leftPad (w : Nat) (bs : Bytes) :
    removePadding (leftPad w bs) = removePadding bs := by
  unfold leftPad removePadding
  rw [List.dropWhile_append_of_pos]
  intro a ha
  rw [List.eq_of_mem_replicate ha]
  rfl

theorem head?_removePadding_ne_zero {bs : Bytes} {b : Nat}
    (h : (removePadding bs).head? = some b) : b ≠ 0 := by
  have hm := List.head?_dropWhile_not (fun x => x == 0) bs
  rw [show List.dropWhile (fun x => x == 0) bs = removePadding bs from rfl, h] at hm
  simpa using hm

theorem removePadding_removePadding (bs : Bytes) :
    removePadding (removePadding bs) = removePadding bs :=
  removePadding_eq_self_of_head fun _ hb => head?_removePadding_ne_zero hb

theorem removePadding_canonicalIntBytes {bs : Bytes}
    (h : removePadding bs = bs) : removePadding (canonicalIntBytes bs) = bs := by
  cases bs with
  | nil => rfl
  | cons b t =>
    have hb : b ≠ 0 := by
      intro h0
      subst h0
      have hlen := (List.dropWhile_sublist (l := t) (fun x => x == 0)).length_le
      rw [show removePadding (0 :: t) = removePadding t by simp [removePadding, List.dropWhile_cons]] at h
      have := congrArg List.length h
      simp [removePadding] at this
      omega
    by_cases hhi : 128 ≤ b
    · simp [canonicalIntBytes, hhi, removePadding, List.dropWhile_cons, hb]
    · simpa [canonicalIntBytes, hhi] using h

theorem length_removePadding_le (bs : Bytes) :
    (removePadding bs).length ≤ bs.length :=
  (List.dropWhile_sublist _).length_le

theorem rawCoordinate_length {n P : Nat} (h : n < 256 ^ P) :
    (rawCoordinate n P).length = P := by
  have hle := natToBE_length_le h
  simp only [rawCoordinate, leftPad, List.length_append, List.length_replicate]
  omega

theorem pointSizeFor_registered {namedCurveSize : String → Option Nat} {c : String} {P : Nat}
    (hreg : namedCurveSize c = some P) (hP : 0 < P) :
    pointSizeFor namedCurveSize (some c) = P := by
  simp [pointSizeFor, hreg, Nat.pos_iff_ne_zero.mp hP]

theorem addPadding_of_le {P : Nat} {bs : Bytes} (h : bs.length ≤ P) :
    addPadding P bs = Except.ok (leftPad P bs) := by
  simp [addPadding, leftPad, h]

theorem two_pow_mul (P : Nat) : 2 ^ (8 * P) = 256 ^ P := by
  rw [pow_mul]
  norm_num

end AsnEcSignatureFormatter

/-! Unfolding lemmas for the two EC conversion directions on an ECDSA
algorithm descriptor. -/

theorem AsnEcSignatureFormatter.toAsnSignature_ecdsa (namedCurveSize : String → Option Nat)
    (hash : Option String) (nc : Option String) (sig : Bytes) :
    toAsnSignature namedCurveSize ⟨some "ECDSA", hash, nc⟩ sig =
      some (serializeECDSASigValue
        { r := removePadding (sig.take (pointSizeFor namedCurveSize nc))
          s := removePadding ((sig.drop (pointSizeFor namedCurveSize nc)).take
                (pointSizeFor namedCurveSize nc)) }) := by
  simp [toAsnSignature]

theorem AsnEcSignatureFormatter.toWebSignature_ecdsa (namedCurveSize : String → Option Nat)
    (hash : Option String) (nc : Option String) (sig : SerializedECDSASig) :
    toWebSignature namedCurveSize ⟨some "ECDSA", hash, nc⟩ sig =
      match addPadding (pointSizeFor namedCurveSize nc) (removePadding sig.rEnc),
            addPadding (pointSizeFor namedCurveSize nc) (removePadding sig.sEnc) with
      | Except.ok r, Except.ok s => Except.ok (some (r ++ s))
      | Except.error e, _ => Except.error e
      | _, Except.error e => Except.error e := by
  simp [toWebSignature, parseECDSASigValue]

open AsnEcSignatureFormatter in
/-- C1: for every curve whose registered point size is `P > 0` and every
coordinate pair `(R, S)` with `R, S < 2^(8P)`, converting the `2P`-byte raw
signature `R‖S` (each coordinate big-endian, left-zero-padded to `P`
bytes) to structured form with `toAsnSignature` and back with
`toWebSignature` under an ECDSA algorithm naming that curve returns
exactly the original raw signature — including `R = 0` and/or `S = 0` and
coordinates whose top byte has the high bit set. -/
theorem ec_signature_transcoding_roundtrip (namedCurveSize : String → Option Nat)
    (curve : String) (hash : Option String) (P R S : Nat)
    (hreg : namedCurveSize curve = some P) (hP : 0 < P)
    (hR : R < 2 ^ (8 * P)) (hS : S < 2 ^ (8 * P)) :
    toAsnSignature namedCurveSize ⟨some "ECDSA", hash, some curve⟩ (rawSignature R S P) =
      some (serializeECDSASigValue ⟨natToBE R, natToBE S⟩) ∧
    toWebSignature namedCurveSize ⟨some "ECDSA", hash, some curve⟩
        (serializeECDSASigValue ⟨natToBE R, natToBE S⟩) =
      Except.ok (some (rawSignature R S P)) := by
  have hR2 : R < 256 ^ P := by rw [← two_pow_mul]; exact hR
  have hS2 : S < 256 ^ P := by rw [← two_pow_mul]; exact hS
  have hps : pointSizeFor namedCurveSize (some curve) = P :=
    pointSizeFor_registered hreg hP
  have hlenR : (rawCoordinate R P).length = P := rawCoordinate_length hR2
  have hlenS : (rawCoordinate S P).length = P := rawCoordinate_length hS2
  constructor
  · rw [toAsnSignature_ecdsa, hps]
    rw [show (rawSignature R S P).take P = rawCoordinate R P from List.take_left' hlenR]
    rw [show (rawSignature R S P).drop P = rawCoordinate S P from List.drop_left' hlenR]
    rw [List.take_of_length_le (le_of_eq hlenS)]
    rw [rawCoordinate, rawCoordinate, removePadding_leftPad, removePadding_leftPad,
      removePadding_natToBE, removePadding_natToBE]
  · rw [toWebSignature_ecdsa, hps]
    have hr : removePadding (serializeECDSASigValue ⟨natToBE R, natToBE S⟩).rEnc = natToBE R :=
      removePadding_canonicalIntBytes (removePadding_natToBE R)
    have hs : removePadding (serializeECDSASigValue ⟨natToBE R, natToBE S⟩).sEnc = natToBE S :=
      removePadding_canonicalIntBytes (removePadding_natToBE S)
    rw [hr, hs, addPadding_of_le (natToBE_length_le hR2),
      addPadding_of_le (natToBE_length_le hS2)]
    rfl

open AsnEcSignatureFormatter in
/-- Concrete instantiation of the round-trip at point size 2 with `R = 0`
and `S = 128` (top byte with high bit set). -/
theorem ec_signature_transcoding_roundtrip_witness :
    toAsnSignature (fun c => if c = "testCurve" then some 2 else none)
        ⟨some "ECDSA", none, some "testCurve"⟩ (rawSignature 0 128 2) =
      some (serializeECDSASigValue ⟨natToBE 0, natToBE 128⟩) ∧
    toWebSignature (fun c => if c = "testCurve" then some 2 else none)
        ⟨some "ECDSA", none, some "testCurve"⟩
        (serializeECDSASigValue ⟨natToBE 0, natToBE 128⟩) =
      Except.ok (some (rawSignature 0 128 2)) :=
  ec_signature_transcoding_roundtrip (fun c => if c = "testCurve" then some 2 else none)
    "testCurve" none 2 0 128 (by simp) (by norm_num) (by norm_num) (by norm_num)

open AsnEcSignatureFormatter in
/-- C5: for every curve name with no entry in the point-size table both
`toAsnSignature` and `toWebSignature` use the fallback point size 32; a
64-byte raw signature under an unknown curve splits into two 32-byte
halves and transcodes without error. -/
theorem unknown_curve_fallback_32 (namedCurveSize : String → Option Nat)
    (curve : String) (hash : Option String) (sig : Bytes)
    (hunreg : namedCurveSize curve = none) (hlen : sig.length = 64) :
    pointSizeFor namedCurveSize (some curve) = 32 ∧
    toAsnSignature namedCurveSize ⟨some "ECDSA", hash, some curve⟩ sig =
      some (serializeECDSASigValue
        ⟨removePadding (sig.take 32), removePadding (sig.drop 32)⟩) ∧
    toWebSignature namedCurveSize ⟨some "ECDSA", hash, some curve⟩
        (serializeECDSASigValue ⟨removePadding (sig.take 32), removePadding (sig.drop 32)⟩) =
      Except.ok (some (leftPad 32 (removePadding (sig.take 32)) ++
        leftPad 32 (removePadding (sig.drop 32)))) := by
  have hps : pointSizeFor namedCurveSize (some curve) = 32 := by
    simp [pointSizeFor, hunreg, defaultNamedCurveSize]
  have hltake : (sig.take 32).length = 32 := by
    simp [hlen]
  have hldrop : (sig.drop 32).length = 32 := by
    simp [hlen]
  refine ⟨hps, ?_, ?_⟩
  · rw [toAsnSignature_ecdsa, hps, List.take_of_length_le (le_of_eq hldrop)]
  · rw [toWebSignature_ecdsa, hps]
    have hr : removePadding
        (serializeECDSASigValue ⟨removePadding (sig.take 32), removePadding (sig.drop 32)⟩).rEnc =
        removePadding (sig.take 32) :=
      removePadding_canonicalIntBytes (removePadding_removePadding _)
    have hs : removePadding
        (serializeECDSASigValue ⟨removePadding (sig.take 32), removePadding (sig.drop 32)⟩).sEnc =
        removePadding (sig.drop 32) :=
      removePadding_canonicalIntBytes (removePadding_removePadding _)
    rw [hr, hs,
      addPadding_of_le (le_trans (length_removePadding_le _) (le_of_eq hltake)),
      addPadding_of_le (le_trans (length_removePadding_le _) (le_of_eq hldrop))]

open AsnEcSignatureFormatter in
/-- Concrete instantiation of the fallback behaviour: an unregistered
curve name with a 64-byte signature of ones. -/
theorem unknown_curve_fallback_32_witness :
    pointSizeFor (fun _ => none) (some "brainpoolP256r1") = 32 ∧
    toAsnSignature (fun _ => none) ⟨some "ECDSA", none, some "brainpoolP256r1"⟩
        (List.replicate 64 1) =
      some (serializeECDSASigValue
        ⟨removePadding ((List.replicate 64 1).take 32),
         removePadding ((List.replicate 64 1).drop 32)⟩) ∧
    toWebSignature (fun _ => none) ⟨some "ECDSA", none, some "brainpoolP256r1"⟩
        (serializeECDSASigValue
          ⟨removePadding ((List.replicate 64 1).take 32),
           removePadding ((List.replicate 64 1).drop 32)⟩) =
      Except.ok (some (leftPad 32 (removePadding ((List.replicate 64 1).take 32)) ++
        leftPad 32 (removePadding ((List.replicate 64 1).drop 32)))) :=
  unknown_curve_fallback_32 (fun _ => none) "brainpoolP256r1" none
    (List.replicate 64 1) rfl (by simp)

open AsnEcSignatureFormatter in
/-- C8: during `toWebSignature`, a parsed signature integer whose stripped
magnitude occupies more bytes than the curve's point size makes the
conversion fail with an error (the `RangeError` thrown when the padding
step is handed an oversized value) rather than silently truncating. -/
theorem toWebSignature_magnitude_overflow_error (namedCurveSize : String → Option Nat)
    (hash : Option String) (nc : Option String) (sig : SerializedECDSASig)
    (hover : pointSizeFor namedCurveSize nc < (removePadding sig.rEnc).length ∨
             pointSizeFor namedCurveSize nc < (removePadding sig.sEnc).length) :
    toWebSignature namedCurveSize ⟨some "ECDSA", hash, nc⟩ sig =
      Except.error "RangeError: offset is out of bounds" := by
  rw [toWebSignature_ecdsa]
  rcases hover with h | h
  · have herr : addPadding (pointSizeFor namedCurveSize nc) (removePadding sig.rEnc) =
        Except.error "RangeError: offset is out of bounds" := by
      unfold addPadding
      rw [if_neg (by omega)]
    rw [herr]
    rcases addPadding (pointSizeFor namedCurveSize nc) (removePadding sig.sEnc) with e2 | s2
    · rfl
    · rfl
  · have herr : addPadding (pointSizeFor namedCurveSize nc) (removePadding sig.sEnc) =
        Except.error "RangeError: offset is out of bounds" := by
      unfold addPadding
      rw [if_neg (by omega)]
    by_cases hr : (removePadding sig.rEnc).length ≤ pointSizeFor namedCurveSize nc
    · rw [addPadding_of_le hr, herr]
    · have herr2 : addPadding (pointSizeFor namedCurveSize nc) (removePadding sig.rEnc) =
          Except.error "RangeError: offset is out of bounds" := by
        unfold addPadding
        rw [if_neg hr]
      rw [herr2, herr]

open AsnEcSignatureFormatter in
/-- Concrete instantiation of the overflow failure: point size 1, a
2-byte magnitude for `r`. -/
theorem toWebSignature_magnitude_overflow_error_witness :
    toWebSignature (fun _ => some 1) ⟨some "ECDSA", none, some "tinyCurve"⟩
        ⟨[1, 1], [0]⟩ =
      Except.error "RangeError: offset is out of bounds" :=
  toWebSignature_magnitude_overflow_error (fun _ => some 1) none (some "tinyCurve")
    ⟨[1, 1], [0]⟩ (Or.inl (by decide))

open AsnEcSignatureFormatter in
/-- C10: `toAsnSignature` performs no validation of the raw signature's
length: for every ECDSA algorithm and every input byte string it succeeds,
slicing whatever bytes lie in the R and S positions — the result only
depends on the first `2 × pointSize` bytes (the rest are silently
dropped), and the empty input yields empty, i.e. zero-valued, integer
magnitudes. -/
theorem toAsnSignature_no_length_validation (namedCurveSize : String → Option Nat)
    (hash : Option String) (nc : Option String) (sig : Bytes) :
    (toAsnSignature namedCurveSize ⟨some "ECDSA", hash, nc⟩ sig).isSome = true ∧
    toAsnSignature namedCurveSize ⟨some "ECDSA", hash, nc⟩ sig =
      toAsnSignature namedCurveSize ⟨some "ECDSA", hash, nc⟩
        (sig.take (2 * pointSizeFor namedCurveSize nc)) ∧
    toAsnSignature namedCurveSize ⟨some "ECDSA", hash, nc⟩ [] =
      some (serializeECDSASigValue ⟨[], []⟩) := by
  refine ⟨?_, ?_, ?_⟩
  · rw [toAsnSignature_ecdsa]
    rfl
  · rw [toAsnSignature_ecdsa, toAsnSignature_ecdsa]
    generalize pointSizeFor namedCurveSize nc = P
    have h1 : (sig.take (2 * P)).take P = sig.take P := by
      rw [List.take_take, Nat.min_eq_left (by omega)]
    have h2 : ((sig.take (2 * P)).drop P).take P = (sig.drop P).take P := by
      rw [List.drop_take, List.take_take]
      congr 1
      omega
    rw [h1, h2]
  · rw [toAsnSignature_ecdsa]
    simp [removePadding]

open PemData in
/-- C2: the decoder returns raw-byte input unchanged; a string input is
classified in strict priority order — PEM first, then hex, then base64,
then base64url — and the first matching classifier's decoder is used (in
particular a non-PEM string accepted by the hex classifier is decoded as
hex regardless of the base64 classifiers); when no classifier matches the
call fails with the unsupported-format error naming the accepted set. -/
theorem toArrayBuffer_priority (c : TextCodec) (s : String) (b : Bytes) :
    (toArrayBuffer c (RawInput.bytes b) = Except.ok b) ∧
    (c.isPem s = true →
      toArrayBuffer c (RawInput.text s) = Except.ok ((c.pemDecode s).headD [])) ∧
    (c.isPem s = false → c.isHex s = true →
      toArrayBuffer c (RawInput.text s) = Except.ok (c.fromHex s)) ∧
    (c.isPem s = false → c.isHex s = false → c.isBase64 s = true →
      toArrayBuffer c (RawInput.text s) = Except.ok (c.fromBase64 s)) ∧
    (c.isPem s = false → c.isHex s = false → c.isBase64 s = false →
      c.isBase64Url s = true →
      toArrayBuffer c (RawInput.text s) = Except.ok (c.fromBase64Url s)) ∧
    (c.isPem s = false → c.isHex s = false → c.isBase64 s = false →
      c.isBase64Url s = false →
      toArrayBuffer c (RawInput.text s) =
        Except.error "Unsupported format of raw argument. Must be one of DER, PEM, HEX, Base64, or Base4Url") := by
  refine ⟨rfl, ?_, ?_, ?_, ?_, ?_⟩ <;> intros <;> simp [toArrayBuffer, *]

/-- A concrete codec instance for the closed instantiations below: a
4-character string passes both the hex classifier and the base64
classifier, so it exercises the priority order; a 20-character string is
classified as PEM and decodes to two delimited-text objects. -/
def sampleCodec : TextCodec :=
  { isPem := fun s => s.length == 20
    pemDecode := fun _ => [[1], [2]]
    isHex := fun s => s.length == 4
    fromHex := fun _ => [171]
    isBase64 := fun s => s.length == 4 || s.length == 8
    fromBase64 := fun _ => [172]
    isBase64Url := fun s => s.length == 3
    fromBase64Url := fun _ => [173] }

/-- Concrete instantiation of the classification priority: "abcd" is both
hex- and base64-accepted and decodes as hex; "abcde" matches nothing and
fails with the unsupported-format error. -/
theorem toArrayBuffer_priority_witness :
    PemData.toArrayBuffer sampleCodec (RawInput.text "abcd") = Except.ok [171] ∧
    PemData.toArrayBuffer sampleCodec (RawInput.text "abcde") =
      Except.error "Unsupported format of raw argument. Must be one of DER, PEM, HEX, Base64, or Base4Url" :=
  ⟨(toArrayBuffer_priority sampleCodec "abcd" []).2.2.1 rfl rfl,
   (toArrayBuffer_priority sampleCodec "abcde" []).2.2.2.2.2 rfl rfl rfl rfl⟩

open PemData in
/-- C9: when a PEM string contains more than one delimited-text object,
`toArrayBuffer` returns only the first decoded object's bytes; every
subsequent object is silently ignored. -/
theorem toArrayBuffer_pem_first_object_only (c : TextCodec) (s : String)
    (b1 : Bytes) (rest : List Bytes)
    (hpem : c.isPem s = true) (hdec : c.pemDecode s = b1 :: rest) :
    toArrayBuffer c (RawInput.text s) = Except.ok b1 := by
  simp [toArrayBuffer, hpem, hdec]

/-- Concrete instantiation: a PEM-classified string decoding to the two
objects `[1]` and `[2]` yields only `[1]`. -/
theorem toArrayBuffer_pem_first_object_only_witness :
    PemData.toArrayBuffer sampleCodec (RawInput.text "AAAAAAAAAAAAAAAAAAAA") =
      Except.ok [1] :=
  toArrayBuffer_pem_first_object_only sampleCodec "AAAAAAAAAAAAAAAAAAAA" [1] [[2]] rfl rfl

open X509CertificateGenerator in
/-- C3: converting the raw signature to structured form, the builder tries
the registered formatters from most-recently-registered to
least-recently-registered and keeps the first applicable result: with F1
registered first and F2 registered second, both accepting the effective
algorithm and raw signature, `create` succeeds with F2's result as the
signature value. -/
theorem create_registry_order (svc : X509Services) (params : CreateParams)
    (f1 f2 : SignatureFormatter) (r1 r2 : Bytes)
    (_h1 : f1.toAsnSignature (effectiveSigningAlgorithm params)
        (rawSignatureOf svc params) = some r1)
    (h2 : f2.toAsnSignature (effectiveSigningAlgorithm params)
        (rawSignatureOf svc params) = some r2) :
    create svc [f1, f2] params =
      Except.ok
        { tbsCertificate := tbsCertificateOf svc params
          signatureAlgorithm := svc.toAsnAlgorithm (effectiveSigningAlgorithm params)
          signatureValue := r2 } := by
  have hconv : convertToAsnSignature [f1, f2] (effectiveSigningAlgorithm params)
      (rawSignatureOf svc params) = some r2 := by
    simp [convertToAsnSignature, List.findSome?_cons, h2]
  simp [create, hconv]

/-- External services fixed to constants, for the closed instantiations
below. -/
def constServices : X509Services :=
  { exportKey := fun _ => [48]
    parseSpki := fun b => b
    fromHex := fun _ => [1]
    parseExtension := fun b => b
    nameToAsn := fun _ => [49]
    toAsnAlgorithm := fun _ => [6, 8]
    serializeTbs := fun _ => [48, 1]
    sign := fun _ _ _ => [9, 9] }

/-- Sample creation parameters. -/
def sampleParams : CreateParams :=
  { serialNumber := "01"
    notBefore := 0
    notAfter := 1
    extensions := []
    subject := none
    issuer := none
    publicKey := 0
    signingKey := { handle := 1, algorithm := ⟨some "ECDSA", none, some "P-256"⟩ }
    signingAlgorithm := ⟨some "ECDSA", some "SHA-256", none⟩ }

/-- Sample self-signed creation parameters. -/
def sampleSelfParams : CreateSelfSignedParams :=
  { serialNumber := "02"
    notBefore := 0
    notAfter := 1
    extensions := []
    name := some "CN=Test"
    keys := { publicKey := 0
              privateKey := { handle := 1, algorithm := ⟨some "ECDSA", none, some "P-256"⟩ } }
    signingAlgorithm := ⟨some "ECDSA", some "SHA-256", none⟩ }

/-- A formatter registered first, answering `[1]`. -/
def formatterOne : SignatureFormatter := ⟨fun _ _ => some [1]⟩

/-- A formatter registered second, answering `[2]`. -/
def formatterTwo : SignatureFormatter := ⟨fun _ _ => some [2]⟩

/-- A formatter that always declines. -/
def decliningFormatter : SignatureFormatter := ⟨fun _ _ => none⟩

/-- Concrete instantiation of the trial order: both formatters accept and
the later-registered one wins. -/
theorem create_registry_order_witness :
    X509CertificateGenerator.create constServices [formatterOne, formatterTwo] sampleParams =
      Except.ok
        { tbsCertificate := X509CertificateGenerator.tbsCertificateOf constServices sampleParams
          signatureAlgorithm := constServices.toAsnAlgorithm
            (X509CertificateGenerator.effectiveSigningAlgorithm sampleParams)
          signatureValue := [2] } :=
  create_registry_order constServices sampleParams formatterOne formatterTwo [1] [2] rfl rfl

open X509CertificateGenerator in
/-- C4: when every registered formatter declines the effective signing
algorithm and raw signature, `create` fails with the
signature-conversion-unsupported error instead of producing a certificate
or guessing a default conversion. -/
theorem create_all_formatters_decline (svc : X509Services)
    (registry : List SignatureFormatter) (params : CreateParams)
    (h : ∀ f ∈ registry, f.toAsnSignature (effectiveSigningAlgorithm params)
        (rawSignatureOf svc params) = none) :
    create svc registry params =
      Except.error "Cannot convert ASN.1 signature value to WebCrypto format" := by
  have hconv : convertToAsnSignature registry (effectiveSigningAlgorithm params)
      (rawSignatureOf svc params) = none := by
    rw [convertToAsnSignature, List.findSome?_eq_none_iff]
    intro f hf
    exact h f (List.mem_reverse.mp hf)
  simp [create, hconv]

/-- Concrete instantiation: a registry holding only a declining formatter
makes `create` fail with the conversion error. -/
theorem create_all_formatters_decline_witness :
    X509CertificateGenerator.create constServices [decliningFormatter] sampleParams =
      Except.error "Cannot convert ASN.1 signature value to WebCrypto format" :=
  create_all_formatters_decline constServices [decliningFormatter] sampleParams
    (by
      intro f hf
      rw [List.mem_singleton] at hf
      subst hf
      rfl)

open X509CertificateGenerator in
/-- C6: every certificate successfully produced by `create` or
`createSelfSigned` carries a body-internal signature-algorithm field
(`tbsCertificate.signature`) byte-identical to its outer
`signatureAlgorithm` field, both assigned from the single structured
identifier the algorithm provider returned for the effective signing
algorithm. -/
theorem cert_algorithm_fields_identical (svc : X509Services)
    (registry : List SignatureFormatter) (params : CreateParams)
    (sparams : CreateSelfSignedParams) (c1 c2 : AsnCertificate) :
    (create svc registry params = Except.ok c1 →
      c1.tbsCertificate.signature = c1.signatureAlgorithm ∧
      c1.signatureAlgorithm = svc.toAsnAlgorithm (effectiveSigningAlgorithm params)) ∧
    (createSelfSigned svc registry sparams = Except.ok c2 →
      c2.tbsCertificate.signature = c2.signatureAlgorithm ∧
      c2.signatureAlgorithm =
        svc.toAsnAlgorithm (effectiveSigningAlgorithm (selfSignedCreateParams sparams))) := by
  constructor
  · intro h
    unfold create at h
    cases hconv : convertToAsnSignature registry (effectiveSigningAlgorithm params)
        (rawSignatureOf svc params) with
    | none =>
      rw [hconv] at h
      cases h
    | some v =>
      rw [hconv] at h
      injection h with h2
      subst h2
      exact ⟨rfl, rfl⟩
  · intro h
    unfold createSelfSigned create at h
    cases hconv : convertToAsnSignature registry
        (effectiveSigningAlgorithm (selfSignedCreateParams sparams))
        (rawSignatureOf svc (selfSignedCreateParams sparams)) with
    | none =>
      rw [hconv] at h
      cases h
    | some v =>
      rw [hconv] at h
      injection h with h2
      subst h2
      exact ⟨rfl, rfl⟩

/-- The certificate `create` produces from the sample inputs with the
always-accepting formatter. -/
def sampleCertificate : AsnCertificate :=
  { tbsCertificate := X509CertificateGenerator.tbsCertificateOf constServices sampleParams
    signatureAlgorithm := constServices.toAsnAlgorithm
      (X509CertificateGenerator.effectiveSigningAlgorithm sampleParams)
    signatureValue := [2] }

/-- The certificate `createSelfSigned` produces from the sample inputs
with the always-accepting formatter. -/
def sampleSelfCertificate : AsnCertificate :=
  { tbsCertificate := X509CertificateGenerator.tbsCertificateOf constServices
      (X509CertificateGenerator.selfSignedCreateParams sampleSelfParams)
    signatureAlgorithm := constServices.toAsnAlgorithm
      (X509CertificateGenerator.effectiveSigningAlgorithm
        (X509CertificateGenerator.selfSignedCreateParams sampleSelfParams))
    signatureValue := [2] }

/-- Concrete instantiation: both builder entry points produce a
certificate whose two algorithm fields coincide. -/
theorem cert_algorithm_fields_identical_witness :
    (sampleCertificate.tbsCertificate.signature = sampleCertificate.signatureAlgorithm ∧
      sampleCertificate.signatureAlgorithm = constServices.toAsnAlgorithm
        (X509CertificateGenerator.effectiveSigningAlgorithm sampleParams)) ∧
    (sampleSelfCertificate.tbsCertificate.signature = sampleSelfCertificate.signatureAlgorithm ∧
      sampleSelfCertificate.signatureAlgorithm = constServices.toAsnAlgorithm
        (X509CertificateGenerator.effectiveSigningAlgorithm
          (X509CertificateGenerator.selfSignedCreateParams sampleSelfParams))) :=
  ⟨(cert_algorithm_fields_identical constServices [formatterTwo] sampleParams
      sampleSelfParams sampleCertificate sampleSelfCertificate).1 rfl,
   (cert_algorithm_fields_identical constServices [formatterTwo] sampleParams
      sampleSelfParams sampleCertificate sampleSelfCertificate).2 rfl⟩

/-- The creation parameters where the caller-supplied descriptor and the
key's metadata disagree on the curve name. -/
def overrideParams : CreateParams :=
  { serialNumber := "01"
    notBefore := 0
    notAfter := 1
    extensions := []
    subject := none
    issuer := none
    publicKey := 0
    signingKey := { handle := 1, algorithm := ⟨some "ECDSA", none, some "P-256"⟩ }
    signingAlgorithm := ⟨some "ECDSA", some "SHA-256", some "P-384"⟩ }

/-- C7 counterexample: the caller supplies `namedCurve = "P-384"` while the
signing key's metadata carries `namedCurve = "P-256"`; the effective
algorithm's curve is the key's `"P-256"` — the key metadata overrides a
field the caller supplied, so it does not merely fill gaps. -/
theorem effective_algorithm_overrides_caller :
    overrideParams.signingAlgorithm.namedCurve = some "P-384" ∧
    overrideParams.signingKey.algorithm.namedCurve = some "P-256" ∧
    (X509CertificateGenerator.effectiveSigningAlgorithm overrideParams).namedCurve =
      some "P-256" ∧
    (X509CertificateGenerator.effectiveSigningAlgorithm overrideParams).namedCurve ≠
      overrideParams.signingAlgorithm.namedCurve := by
  refine ⟨rfl, rfl, rfl, ?_⟩
  decide

open X509CertificateGenerator in
/-- C7 (amended): the effective signing algorithm — the one handed both to
the external sign call and to the algorithm-identifier lookup — is the
spread merge of the caller-supplied descriptor with the signing key's
algorithm metadata in which the KEY's fields take precedence: a field
present in the key metadata overrides the caller's value, and a
caller-supplied field survives only when the key metadata lacks that
field. -/
theorem effective_algorithm_key_precedence (svc : X509Services) (params : CreateParams)
    (a k : AlgorithmDesc) (v : String) :
    effectiveSigningAlgorithm params =
      mergeAlg params.signingAlgorithm params.signingKey.algorithm ∧
    rawSignatureOf svc params =
      svc.sign (mergeAlg params.signingAlgorithm params.signingKey.algorithm)
        params.signingKey.handle (svc.serializeTbs (tbsCertificateOf svc params)) ∧
    (tbsCertificateOf svc params).signature =
      svc.toAsnAlgorithm (mergeAlg params.signingAlgorithm params.signingKey.algorithm) ∧
    (k.name = none → (mergeAlg a k).name = a.name) ∧
    (k.name = some v → (mergeAlg a k).name = some v) ∧
    (k.hash = none → (mergeAlg a k).hash = a.hash) ∧
    (k.hash = some v → (mergeAlg a k).hash = some v) ∧
    (k.namedCurve = none → (mergeAlg a k).namedCurve = a.namedCurve) ∧
    (k.namedCurve = some v → (mergeAlg a k).namedCurve = some v) := by
  refine ⟨rfl, rfl, rfl, ?_, ?_, ?_, ?_, ?_, ?_⟩ <;> intro h <;> simp [mergeAlg, h]

/-- Concrete instantiation of the amended merge semantics: the key's
missing hash lets the caller's hash through, while the key's curve name
overrides. -/
theorem effective_algorithm_key_precedence_witness :
    (mergeAlg ⟨some "ECDSA", some "SHA-256", some "P-384"⟩
      ⟨some "ECDSA", none, some "P-256"⟩).hash = some "SHA-256" ∧
    (mergeAlg ⟨some "ECDSA", some "SHA-256", some "P-384"⟩
      ⟨some "ECDSA", none, some "P-256"⟩).namedCurve = some "P-256" :=
  ⟨(effective_algorithm_key_precedence constServices sampleParams
      ⟨some "ECDSA", some "SHA-256", some "P-384"⟩
      ⟨some "ECDSA", none, some "P-256"⟩ "x").2.2.2.2.2.1 rfl,
   (effective_algorithm_key_precedence constServices sampleParams
      ⟨some "ECDSA", some "SHA-256", some "P-384"⟩
      ⟨some "ECDSA", none, some "P-256"⟩ "P-256").2.2.2.2.2.2.2.2 rfl⟩
